import Mathlib

/-!
Verification of the core of the authentication template: the in-memory storage
adapter (user table plus three derived indexes), the token lifecycle for
email verification and password reset, the fixed-window rate limiter, and
the route-level decision logic (register, forgot-password, reset-password,
verify-email, middleware gate).

JavaScript `Map` objects are modelled as association lists with
first-match lookup; `set` replaces any existing binding and `delete`
removes it.  Timestamps (`Date`, `Date.now()`) are modelled as natural
numbers (milliseconds).  TypeScript `undefined` vs `null` on update
inputs is modelled by nested options: the outer layer is presence of the
field, the inner layer is nullability.  String truthiness (empty string
is falsy) is modelled explicitly where the source relies on it.
-/

/-- Association-list model of a JavaScript Map with String keys. -/
abbrev SMap (β : Type) := List (String × β)

def SMap.get {β : Type} : SMap β → String → Option β
  | [], _ => none
  | p :: rest, k => if p.1 == k then some p.2 else SMap.get rest k

def SMap.delete {β : Type} : SMap β → String → SMap β
  | [], _ => []
  | p :: rest, k => if p.1 == k then SMap.delete rest k else p :: SMap.delete rest k

def SMap.set {β : Type} (m : SMap β) (k : String) (v : β) : SMap β :=
  (k, v) :: m.delete k

def SMap.has {β : Type} (m : SMap β) (k : String) : Bool :=
  (m.get k).isSome

/-- User record of the in-memory adapter (`lib/db/types.ts`, `User`). -/
structure User where
  id : String
  email : String
  passwordHash : String
  name : String
  emailVerified : Option Nat
  emailVerificationToken : Option String
  emailVerificationTokenExpiresAt : Option Nat
  passwordResetToken : Option String
  passwordResetTokenExpiresAt : Option Nat
  createdAt : Nat
  updatedAt : Nat
deriving DecidableEq

/-- Input to `createUser` (`CreateUserInput`): the two token fields are optional. -/
structure CreateUserInput where
  email : String
  passwordHash : String
  name : String
  emailVerificationToken : Option String
  emailVerificationTokenExpiresAt : Option Nat
deriving DecidableEq

/-- Input to `updateUser` (`UpdateUserInput`): outer option is presence of
the field in the object, inner option is nullability. -/
structure UpdateUserInput where
  email : Option String
  passwordHash : Option String
  name : Option String
  emailVerified : Option (Option Nat)
  emailVerificationToken : Option (Option String)
  emailVerificationTokenExpiresAt : Option (Option Nat)
  passwordResetToken : Option (Option String)
  passwordResetTokenExpiresAt : Option (Option Nat)
deriving DecidableEq

/-- Token lookup result (`TokenData`). -/
structure TokenData where
  userId : String
  token : String
  expiresAt : Nat
deriving DecidableEq

/-- Projection returned by `findUserByEmail` (`UserForAuth`). -/
structure UserForAuth where
  id : String
  email : String
  name : String
  passwordHash : String
  emailVerified : Option Nat
deriving DecidableEq

/-- The four module-level Maps of the in-memory adapter. -/
structure MemoryState where
  users : SMap User
  emailIndex : SMap String
  verificationTokenIndex : SMap String
  passwordResetTokenIndex : SMap String
deriving DecidableEq

/-- ASCII model of JavaScript `toLowerCase` (emails in this system are ASCII). -/
def toLowerStr (s : String) : String :=
  String.mk (s.data.map Char.toLower)

/-- JavaScript truthiness of a possibly-absent string: absent and empty are falsy. -/
def optStrTruthy : Option String → Bool
  | none => false
  | some s => !(s == "")

/-- MemoryAdapter.findUserByEmail: normalize, look up the email index, then the user table. -/
def findUserByEmail (s : MemoryState) (email : String) : Option UserForAuth :=
  match s.emailIndex.get (toLowerStr email) with
  | none => none
  | some userId =>
    match s.users.get userId with
    | none => none
    | some user =>
      some { id := user.id, email := user.email, name := user.name,
             passwordHash := user.passwordHash, emailVerified := user.emailVerified }

/-- MemoryAdapter.findUserById. -/
def findUserById (s : MemoryState) (id : String) : Option User :=
  s.users.get id

/-- MemoryAdapter.createUser: the generated uuid and the current time are passed
in as parameters `id` and `now`.  Note: the source performs no duplicate-email
check; it unconditionally writes the user record and repoints the email index. -/
def createUser (s : MemoryState) (data : CreateUserInput) (id : String) (now : Nat) :
    User × MemoryState :=
  let normalizedEmail := toLowerStr data.email
  let user : User :=
    { id := id
      email := normalizedEmail
      passwordHash := data.passwordHash
      name := data.name
      emailVerified := none
      emailVerificationToken :=
        if optStrTruthy data.emailVerificationToken then data.emailVerificationToken else none
      emailVerificationTokenExpiresAt := data.emailVerificationTokenExpiresAt
      passwordResetToken := none
      passwordResetTokenExpiresAt := none
      createdAt := now
      updatedAt := now }
  let vIndex1 :=
    match data.emailVerificationToken with
    | some t => if !(t == "") then s.verificationTokenIndex.set t id else s.verificationTokenIndex
    | none => s.verificationTokenIndex
  (user, { s with users := s.users.set id user,
                  emailIndex := s.emailIndex.set normalizedEmail id,
                  verificationTokenIndex := vIndex1 })

/-- Index maintenance `if (user.token) index.delete(user.token)` — a truthy
(non-null, non-empty) old token is removed from the lookup index. -/
def deleteIfTruthy (idx : SMap String) (tok : Option String) : SMap String :=
  match tok with
  | some t => if !(t == "") then idx.delete t else idx
  | none => idx

/-- Index maintenance of MemoryAdapter.updateUser for one token kind: when the
field is present in the update object, the old token is removed from the index
and a truthy new token is added. -/
def updateTokenIndex (idx : SMap String) (oldTok : Option String)
    (change : Option (Option String)) (id : String) : SMap String :=
  match change with
  | none => idx
  | some newTok =>
    let idx1 := deleteIfTruthy idx oldTok
    match newTok with
    | some t => if !(t == "") then idx1.set t id else idx1
    | none => idx1

/-- MemoryAdapter.updateUser: throws when the user is missing, otherwise
maintains the three indexes and merges the update object over the record
(object-spread semantics; the email is lower-cased when truthy). -/
def updateUser (s : MemoryState) (id : String) (data : UpdateUserInput) (now : Nat) :
    Except String (User × MemoryState) :=
  match s.users.get id with
  | none => Except.error ("User not found: " ++ id)
  | some user =>
    let emailIndex1 :=
      match data.email with
      | some e =>
        if !(e == "") && !(e == user.email) then
          (s.emailIndex.delete user.email).set (toLowerStr e) id
        else s.emailIndex
      | none => s.emailIndex
    let vIndex1 :=
      updateTokenIndex s.verificationTokenIndex user.emailVerificationToken
        data.emailVerificationToken id
    let rIndex1 :=
      updateTokenIndex s.passwordResetTokenIndex user.passwordResetToken
        data.passwordResetToken id
    let updatedUser : User :=
      { id := user.id
        email :=
          match data.email with
          | some e => if !(e == "") then toLowerStr e else user.email
          | none => user.email
        passwordHash := data.passwordHash.getD user.passwordHash
        name := data.name.getD user.name
        emailVerified := data.emailVerified.getD user.emailVerified
        emailVerificationToken := data.emailVerificationToken.getD user.emailVerificationToken
        emailVerificationTokenExpiresAt :=
          data.emailVerificationTokenExpiresAt.getD user.emailVerificationTokenExpiresAt
        passwordResetToken := data.passwordResetToken.getD user.passwordResetToken
        passwordResetTokenExpiresAt :=
          data.passwordResetTokenExpiresAt.getD user.passwordResetTokenExpiresAt
        createdAt := user.createdAt
        updatedAt := now }
    Except.ok (updatedUser,
      { users := s.users.set id updatedUser
        emailIndex := emailIndex1
        verificationTokenIndex := vIndex1
        passwordResetTokenIndex := rIndex1 })

/-- MemoryAdapter.emailExists. -/
def emailExists (s : MemoryState) (email : String) : Bool :=
  s.emailIndex.has (toLowerStr email)

/-- MemoryAdapter.setVerificationToken: throws when the user is missing;
removes the old truthy token from the index, writes the new token on the
record and indexes it. -/
def setVerificationToken (s : MemoryState) (userId token : String) (expiresAt now : Nat) :
    Except String MemoryState :=
  match s.users.get userId with
  | none => Except.error ("User not found: " ++ userId)
  | some user =>
    let vIndex1 := deleteIfTruthy s.verificationTokenIndex user.emailVerificationToken
    let user1 := { user with emailVerificationToken := some token,
                             emailVerificationTokenExpiresAt := some expiresAt,
                             updatedAt := now }
    Except.ok { s with verificationTokenIndex := vIndex1.set token userId,
                       users := s.users.set userId user1 }

/-- MemoryAdapter.getVerificationToken: index lookup, then the user record;
returns none when the user is absent or has no expiry on file. -/
def getVerificationToken (s : MemoryState) (token : String) : Option TokenData :=
  match s.verificationTokenIndex.get token with
  | none => none
  | some userId =>
    match s.users.get userId with
    | none => none
    | some user =>
      match user.emailVerificationTokenExpiresAt with
      | none => none
      | some exp => some { userId := userId, token := token, expiresAt := exp }

/-- MemoryAdapter.clearVerificationToken: silent no-op when the user is missing. -/
def clearVerificationToken (s : MemoryState) (userId : String) (now : Nat) : MemoryState :=
  match s.users.get userId with
  | none => s
  | some user =>
    let vIndex1 := deleteIfTruthy s.verificationTokenIndex user.emailVerificationToken
    let user1 := { user with emailVerificationToken := none,
                             emailVerificationTokenExpiresAt := none,
                             updatedAt := now }
    { s with verificationTokenIndex := vIndex1, users := s.users.set userId user1 }

/-- MemoryAdapter.setPasswordResetToken: same pattern as the verification kind. -/
def setPasswordResetToken (s : MemoryState) (userId token : String) (expiresAt now : Nat) :
    Except String MemoryState :=
  match s.users.get userId with
  | none => Except.error ("User not found: " ++ userId)
  | some user =>
    let rIndex1 := deleteIfTruthy s.passwordResetTokenIndex user.passwordResetToken
    let user1 := { user with passwordResetToken := some token,
                             passwordResetTokenExpiresAt := some expiresAt,
                             updatedAt := now }
    Except.ok { s with passwordResetTokenIndex := rIndex1.set token userId,
                       users := s.users.set userId user1 }

/-- MemoryAdapter.getPasswordResetToken. -/
def getPasswordResetToken (s : MemoryState) (token : String) : Option TokenData :=
  match s.passwordResetTokenIndex.get token with
  | none => none
  | some userId =>
    match s.users.get userId with
    | none => none
    | some user =>
      match user.passwordResetTokenExpiresAt with
      | none => none
      | some exp => some { userId := userId, token := token, expiresAt := exp }

/-- MemoryAdapter.clearPasswordResetToken: silent no-op when the user is missing. -/
def clearPasswordResetToken (s : MemoryState) (userId : String) (now : Nat) : MemoryState :=
  match s.users.get userId with
  | none => s
  | some user =>
    let rIndex1 := deleteIfTruthy s.passwordResetTokenIndex user.passwordResetToken
    let user1 := { user with passwordResetToken := none,
                             passwordResetTokenExpiresAt := none,
                             updatedAt := now }
    { s with passwordResetTokenIndex := rIndex1, users := s.users.set userId user1 }

/-- BaseAdapter.verifyUserEmail: one updateUser call setting the verified
timestamp and clearing the verification token fields. -/
def verifyUserEmail (s : MemoryState) (userId : String) (now : Nat) :
    Except String MemoryState :=
  match updateUser s userId
      { email := none, passwordHash := none, name := none,
        emailVerified := some (some now),
        emailVerificationToken := some none,
        emailVerificationTokenExpiresAt := some none,
        passwordResetToken := none, passwordResetTokenExpiresAt := none } now with
  | Except.ok r => Except.ok r.2
  | Except.error e => Except.error e

/-- BaseAdapter.updatePassword: one updateUser call setting the new hash and
clearing the reset token fields. -/
def updatePassword (s : MemoryState) (userId passwordHash : String) (now : Nat) :
    Except String MemoryState :=
  match updateUser s userId
      { email := none, passwordHash := some passwordHash, name := none,
        emailVerified := none,
        emailVerificationToken := none,
        emailVerificationTokenExpiresAt := none,
        passwordResetToken := some none,
        passwordResetTokenExpiresAt := some none } now with
  | Except.ok r => Except.ok r.2
  | Except.error e => Except.error e

/-- Entry of the rate-limit store (`RateLimitEntry`). -/
structure RateLimitEntry where
  count : Nat
  resetAt : Nat
deriving DecidableEq

/-- Rate-limit configuration (`RateLimitConfig`). -/
structure RateLimitConfig where
  limit : Nat
  windowSeconds : Nat
deriving DecidableEq

/-- Return shape of checkRateLimit.  `remaining` is an integer because the
source computes it by subtraction on numbers. -/
structure RateLimitResult where
  allowed : Bool
  remaining : Int
  resetAt : Nat
deriving DecidableEq

/-- checkRateLimit, per `(identifier, endpoint)` key: the store argument is the
entry currently held for that key.  The lazy cleanup sweep in the source only
deletes entries with `resetAt < now`, which this function already treats
exactly like an absent entry, so the sweep does not change the behaviour
modelled here. -/
def checkRateLimit (store : Option RateLimitEntry) (now : Nat) (config : RateLimitConfig) :
    RateLimitResult × Option RateLimitEntry :=
  match store with
  | none =>
    let resetAt := now + config.windowSeconds * 1000
    ({ allowed := true, remaining := (config.limit : Int) - 1, resetAt := resetAt },
     some { count := 1, resetAt := resetAt })
  | some entry =>
    if entry.resetAt < now then
      let resetAt := now + config.windowSeconds * 1000
      ({ allowed := true, remaining := (config.limit : Int) - 1, resetAt := resetAt },
       some { count := 1, resetAt := resetAt })
    else if config.limit ≤ entry.count then
      ({ allowed := false, remaining := 0, resetAt := entry.resetAt }, some entry)
    else
      ({ allowed := true, remaining := (config.limit : Int) - ((entry.count : Int) + 1),
         resetAt := entry.resetAt },
       some { count := entry.count + 1, resetAt := entry.resetAt })

/-- Iterate checkRateLimit over a list of request times on one key, collecting
the allowed flags and the final stored entry. -/
def rlRun (config : RateLimitConfig) (times : List Nat) (store : Option RateLimitEntry) :
    List Bool × Option RateLimitEntry :=
  match times with
  | [] => ([], store)
  | t :: ts =>
    let step := checkRateLimit store t config
    let rest := rlRun config ts step.2
    (step.1.allowed :: rest.1, rest.2)

/-- The registration password policy (`passwordSchema` in lib/validations/auth.ts):
length 8..128, at least one uppercase letter, one lowercase letter, one digit. -/
def passwordSchemaAccepts (p : String) : Bool :=
  decide (8 ≤ p.length) && decide (p.length ≤ 128) &&
  p.data.any (fun c => decide ('A' ≤ c) && decide (c ≤ 'Z')) &&
  p.data.any (fun c => decide ('a' ≤ c) && decide (c ≤ 'z')) &&
  p.data.any (fun c => decide ('0' ≤ c) && decide (c ≤ '9'))

/-- PROTECTED_ROUTES of src/middleware.ts. -/
def PROTECTED_ROUTES : List String := ["/dashboard"]

/-- AUTH_ROUTES of src/middleware.ts. -/
def AUTH_ROUTES : List String :=
  ["/", "/login", "/register", "/forgot-password", "/reset-password", "/verify-email"]

/-- JavaScript `String.prototype.startsWith`. -/
def strStartsWith (s p : String) : Bool :=
  p.data.isPrefixOf s.data

/-- Protected-route test: exact match or a subpath. -/
def isProtectedRoute (pathname : String) : Bool :=
  PROTECTED_ROUTES.any (fun route => pathname == route || strStartsWith pathname (route ++ "/"))

/-- Auth-route test: exact match only, except `/verify-email`, which also
matches subpaths. -/
def isAuthRoute (pathname : String) : Bool :=
  AUTH_ROUTES.any (fun route =>
    if route == "/verify-email" then pathname == route || strStartsWith pathname (route ++ "/")
    else pathname == route)

/-- Outcome of the middleware gate. -/
inductive GateDecision where
  | redirectToLogin (callbackUrl : String)
  | redirectToDashboard
  | next
deriving DecidableEq

/-- The middleware decision function: protected and unauthenticated redirects
to login carrying the pathname as callbackUrl; auth route and authenticated
redirects to /dashboard; otherwise pass through. -/
def middleware (pathname : String) (isAuthenticated : Bool) : GateDecision :=
  if isProtectedRoute pathname && !isAuthenticated then
    GateDecision.redirectToLogin pathname
  else if isAuthRoute pathname && isAuthenticated then
    GateDecision.redirectToDashboard
  else
    GateDecision.next

/-- Responses of the register route. -/
inductive RegisterResponse where
  | rateLimited
  | emailExistsError
  | created (id email name : String)
  | internalError
deriving DecidableEq

/-- POST /api/auth/register after request parsing: rate limit, emailExists
pre-check (409 EMAIL_EXISTS), then createUser.  `email`, `passwordHash` and
`name` are the zod-validated body fields (the schema lower-cases the email,
but the adapter also normalizes on its own); `newToken`, `newId` stand for
the generated verification token and uuid. -/
def registerPOST (s : MemoryState) (rateLimited : Bool)
    (email passwordHash name newToken newId : String) (now : Nat) :
    RegisterResponse × MemoryState :=
  if rateLimited then (RegisterResponse.rateLimited, s)
  else if emailExists s email then (RegisterResponse.emailExistsError, s)
  else
    let r := createUser s
      { email := email, passwordHash := passwordHash, name := name,
        emailVerificationToken := some newToken,
        emailVerificationTokenExpiresAt := some (now + 86400000) } newId now
    (RegisterResponse.created r.1.id r.1.email r.1.name, r.2)

/-- Responses of the verify-email GET route. -/
inductive VerifyResponse where
  | validationError
  | invalidToken
  | tokenExpired
  | redirectSuccess
  | internalError
deriving DecidableEq

/-- GET /api/auth/verify-email?token=...: falsy token is a validation error;
unknown token is INVALID_VERIFICATION_TOKEN; `expiresAt < now` is
VERIFICATION_TOKEN_EXPIRED; otherwise verifyUserEmail runs and the route
redirects to the success page. -/
def verifyEmailGET (s : MemoryState) (token : Option String) (now : Nat) :
    VerifyResponse × MemoryState :=
  if !(optStrTruthy token) then (VerifyResponse.validationError, s)
  else
    match getVerificationToken s (token.getD "") with
    | none => (VerifyResponse.invalidToken, s)
    | some td =>
      if td.expiresAt < now then (VerifyResponse.tokenExpired, s)
      else
        match verifyUserEmail s td.userId now with
        | Except.ok s1 => (VerifyResponse.redirectSuccess, s1)
        | Except.error _ => (VerifyResponse.internalError, s)

/-- Responses of the reset-password route. -/
inductive ResetResponse where
  | rateLimited
  | validationError (message : String)
  | invalidToken
  | tokenExpired
  | success
  | internalError
deriving DecidableEq

/-- Is this response the VALIDATION_ERROR shape? -/
def ResetResponse.isValidationError : ResetResponse → Bool
  | ResetResponse.validationError _ => true
  | _ => false

/-- POST /api/auth/reset-password: rate limit, require token and password,
reject passwords shorter than 8 characters (the only password check this
route performs), then token lookup, expiry check, and updatePassword.
`newHash` stands for the bcrypt hash of the new password. -/
def resetPasswordPOST (s : MemoryState) (token password : Option String) (now : Nat)
    (newHash : String) (rateLimited : Bool) : ResetResponse × MemoryState :=
  if rateLimited then (ResetResponse.rateLimited, s)
  else if !(optStrTruthy token) || !(optStrTruthy password) then
    (ResetResponse.validationError "Token and password are required", s)
  else if (password.getD "").length < 8 then
    (ResetResponse.validationError "Password must be at least 8 characters", s)
  else
    match getPasswordResetToken s (token.getD "") with
    | none => (ResetResponse.invalidToken, s)
    | some td =>
      if td.expiresAt < now then (ResetResponse.tokenExpired, s)
      else
        match updatePassword s td.userId newHash now with
        | Except.ok s1 => (ResetResponse.success, s1)
        | Except.error _ => (ResetResponse.internalError, s)

/-- Responses of the forgot-password route. -/
inductive ForgotResponse where
  | rateLimited
  | validationError
  | success
  | internalError
deriving DecidableEq

/-- POST /api/auth/forgot-password: rate limit, require email, then look the
user up; a missing user still answers the success shape, an existing user gets
a fresh reset token (1h expiry) before the same success shape.  `newToken`
stands for the generated uuid; the email dispatch is a collaborator assumed
to succeed. -/
def forgotPasswordPOST (s : MemoryState) (rateLimited : Bool) (email : Option String)
    (newToken : String) (now : Nat) : ForgotResponse × MemoryState :=
  if rateLimited then (ForgotResponse.rateLimited, s)
  else if !(optStrTruthy email) then (ForgotResponse.validationError, s)
  else
    match findUserByEmail s (email.getD "") with
    | none => (ForgotResponse.success, s)
    | some u =>
      match setPasswordResetToken s u.id newToken (now + 3600000) now with
      | Except.ok s1 => (ForgotResponse.success, s1)
      | Except.error _ => (ForgotResponse.internalError, s)

def exUser : User :=
  { id := "u1", email := "a@x.com", passwordHash := "h1", name := "Ann",
    emailVerified := none, emailVerificationToken := some "tok",
    emailVerificationTokenExpiresAt := some 1000,
    passwordResetToken := some "rt", passwordResetTokenExpiresAt := some 1000,
    createdAt := 0, updatedAt := 0 }

def exState : MemoryState :=
  { users := [("u1", exUser)], emailIndex := [("a@x.com", "u1")],
    verificationTokenIndex := [("tok", "u1")],
    passwordResetTokenIndex := [("rt", "u1")] }

def emptyState : MemoryState :=
  { users := [], emailIndex := [], verificationTokenIndex := [],
    passwordResetTokenIndex := [] }

/-- Store well-formedness: every user record is stored under its own id.
Every state reachable through the adapter operations satisfies this (createUser
stores the record under the generated id, updateUser never changes the id). -/
abbrev UsersKeyed (s : MemoryState) : Prop := ∀ p ∈ s.users, (p.2 : User).id = p.1


theorem SMap.get_delete {β : Type} (m : SMap β) (k t : String) :
    (m.delete k).get t = if t = k then none else m.get t := by
  induction m with
  | nil => simp [SMap.delete, SMap.get]
  | cons p rest ih =>
    by_cases hpk : p.1 = k <;> by_cases hpt : p.1 = t <;> by_cases htk : t = k <;>
      simp_all [SMap.delete, SMap.get]

theorem SMap.get_set_self {β : Type} (m : SMap β) (k : String) (v : β) :
    (m.set k v).get k = some v := by
  simp [SMap.set, SMap.get]

theorem SMap.get_set_ne {β : Type} (m : SMap β) (k t : String) (v : β) (h : t ≠ k) :
    (m.set k v).get t = m.get t := by
  have h1 : ¬(k = t) := fun he => h he.symm
  simp [SMap.set, SMap.get, SMap.get_delete, h, h1]

theorem SMap.get_mem {β : Type} {m : SMap β} {k : String} {v : β}
    (h : m.get k = some v) : (k, v) ∈ m := by
  induction m with
  | nil => simp [SMap.get] at h
  | cons p rest ih =>
    obtain ⟨a, b⟩ := p
    unfold SMap.get at h
    by_cases hak : a = k
    · subst hak
      simp at h
      subst h
      exact List.mem_cons_self _ _
    · simp [hak] at h
      exact List.mem_cons_of_mem _ (ih h)

theorem getVerificationToken_inv {s : MemoryState} {t : String} {td : TokenData}
    (h : getVerificationToken s t = some td) :
    s.verificationTokenIndex.get t = some td.userId ∧ td.token = t ∧
    ∃ u, s.users.get td.userId = some u ∧
      u.emailVerificationTokenExpiresAt = some td.expiresAt := by
  cases hidx : s.verificationTokenIndex.get t with
  | none => simp [getVerificationToken, hidx] at h
  | some uid =>
    cases husr : s.users.get uid with
    | none => simp [getVerificationToken, hidx, husr] at h
    | some u =>
      cases hexp : u.emailVerificationTokenExpiresAt with
      | none => simp [getVerificationToken, hidx, husr, hexp] at h
      | some e =>
        simp [getVerificationToken, hidx, husr, hexp] at h
        subst h
        exact ⟨rfl, rfl, u, husr, hexp⟩

theorem deleteIfTruthy_get (idx : SMap String) (tok : Option String) (t : String) :
    (deleteIfTruthy idx tok).get t = none ∨ (deleteIfTruthy idx tok).get t = idx.get t := by
  cases tok with
  | none => right; rfl
  | some t0 =>
    unfold deleteIfTruthy
    by_cases h0 : t0 = ""
    · right; simp [h0]
    · by_cases htt : t = t0
      · left; simp [h0, SMap.get_delete, htt]
      · right; simp [h0, SMap.get_delete, htt]

theorem verifyUserEmail_eq {s : MemoryState} {userId : String} {u : User} (now : Nat)
    (husr : s.users.get userId = some u) :
    verifyUserEmail s userId now = Except.ok
      { users := s.users.set userId
          { u with emailVerified := some now, emailVerificationToken := none,
                   emailVerificationTokenExpiresAt := none, updatedAt := now }
        emailIndex := s.emailIndex
        verificationTokenIndex :=
          deleteIfTruthy s.verificationTokenIndex u.emailVerificationToken
        passwordResetTokenIndex := s.passwordResetTokenIndex } := by
  simp [verifyUserEmail, updateUser, husr, updateTokenIndex]

theorem updatePassword_eq {s : MemoryState} {userId : String} {u : User}
    (newHash : String) (now : Nat) (husr : s.users.get userId = some u) :
    updatePassword s userId newHash now = Except.ok
      { users := s.users.set userId
          { u with passwordHash := newHash, passwordResetToken := none,
                   passwordResetTokenExpiresAt := none, updatedAt := now }
        emailIndex := s.emailIndex
        verificationTokenIndex := s.verificationTokenIndex
        passwordResetTokenIndex :=
          deleteIfTruthy s.passwordResetTokenIndex u.passwordResetToken } := by
  simp [updatePassword, updateUser, husr, updateTokenIndex]

theorem getPasswordResetToken_inv {s : MemoryState} {t : String} {td : TokenData}
    (h : getPasswordResetToken s t = some td) :
    s.passwordResetTokenIndex.get t = some td.userId ∧ td.token = t ∧
    ∃ u, s.users.get td.userId = some u ∧
      u.passwordResetTokenExpiresAt = some td.expiresAt := by
  cases hidx : s.passwordResetTokenIndex.get t with
  | none => simp [getPasswordResetToken, hidx] at h
  | some uid =>
    cases husr : s.users.get uid with
    | none => simp [getPasswordResetToken, hidx, husr] at h
    | some u =>
      cases hexp : u.passwordResetTokenExpiresAt with
      | none => simp [getPasswordResetToken, hidx, husr, hexp] at h
      | some e =>
        simp [getPasswordResetToken, hidx, husr, hexp] at h
        subst h
        exact ⟨rfl, rfl, u, husr, hexp⟩

theorem rlRun_fill (config : RateLimitConfig) (R : Nat) :
    ∀ (ts : List Nat) (c : Nat), (∀ t ∈ ts, t ≤ R) → c + ts.length ≤ config.limit →
    rlRun config ts (some { count := c, resetAt := R }) =
      (List.replicate ts.length true, some { count := c + ts.length, resetAt := R }) := by
  intro ts
  induction ts with
  | nil => intro c _ _; simp [rlRun]
  | cons t ts ih =>
    intro c hts hlen
    have htR : t ≤ R := hts t (List.mem_cons_self _ _)
    have hc : c < config.limit := by
      have := List.length_cons t ts
      omega
    have hstep : checkRateLimit (some { count := c, resetAt := R }) t config =
        ({ allowed := true, remaining := (config.limit : Int) - ((c : Int) + 1),
           resetAt := R }, some { count := c + 1, resetAt := R }) := by
      have h1 : ¬ R < t := Nat.not_lt.mpr htR
      have h2 : ¬ config.limit ≤ c := Nat.not_le.mpr hc
      simp [checkRateLimit, h1, h2]
    have hrec := ih (c + 1) (fun x hx => hts x (List.mem_cons_of_mem _ hx)) (by
      have := List.length_cons t ts
      omega)
    simp only [rlRun, hstep, hrec]
    have harith : c + 1 + ts.length = c + (ts.length + 1) := by omega
    simp [harith, List.replicate]

theorem findUserByEmail_keyed {s : MemoryState} {e : String} {u : UserForAuth}
    (hk : UsersKeyed s) (hf : findUserByEmail s e = some u) :
    ∃ user : User, s.users.get u.id = some user := by
  cases hidx : s.emailIndex.get (toLowerStr e) with
  | none => simp [findUserByEmail, hidx] at hf
  | some uid =>
    cases husr : s.users.get uid with
    | none => simp [findUserByEmail, hidx, husr] at hf
    | some user =>
      simp [findUserByEmail, hidx, husr] at hf
      have hid : user.id = uid := hk _ (SMap.get_mem husr)
      refine ⟨user, ?_⟩
      rw [← hf]
      simp [hid]
      exact husr

/-- Claim C1 theorem (amended): the register flow enforces email uniqueness
through the emailExists pre-check — when the normalized email is absent the
first registration succeeds, after which the same email (any casing) is
present, and a second registration answers EMAIL_EXISTS leaving the state
unchanged.  (The adapter itself performs no duplicate check; see the
counterexample.) -/
theorem register_enforces_email_uniqueness (s : MemoryState)
    (email pwh nm tok1 tok2 id1 id2 : String) (now1 now2 : Nat)
    (h : emailExists s email = false) :
    (registerPOST s false email pwh nm tok1 id1 now1).1
        = RegisterResponse.created id1 (toLowerStr email) nm ∧
    emailExists (registerPOST s false email pwh nm tok1 id1 now1).2 email = true ∧
    registerPOST (registerPOST s false email pwh nm tok1 id1 now1).2 false
        email pwh nm tok2 id2 now2
      = (RegisterResponse.emailExistsError,
         (registerPOST s false email pwh nm tok1 id1 now1).2) := by
  have h0 : (s.emailIndex.get (toLowerStr email)).isSome = false := by
    simpa [emailExists, SMap.has] using h
  have h2 : emailExists (registerPOST s false email pwh nm tok1 id1 now1).2 email = true := by
    simp [registerPOST, emailExists, SMap.has, h0, createUser, SMap.get_set_self]
  have key : ∀ s1 : MemoryState, emailExists s1 email = true →
      registerPOST s1 false email pwh nm tok2 id2 now2
        = (RegisterResponse.emailExistsError, s1) := by
    intro s1 hs1
    simp [registerPOST, hs1]
  exact ⟨by simp [registerPOST, h, createUser], h2, key _ h2⟩

/-- Claim C1 counterexample. -/
theorem createUser_no_duplicate_check :
    emailExists exState "A@x.com" = true ∧
    exState.emailIndex.get "a@x.com" = some "u1" ∧
    ((createUser exState
        { email := "A@x.com", passwordHash := "h2", name := "Bob",
          emailVerificationToken := none, emailVerificationTokenExpiresAt := none }
        "u2" 7).2.emailIndex.get "a@x.com" = some "u2") ∧
    (((createUser exState
        { email := "A@x.com", passwordHash := "h2", name := "Bob",
          emailVerificationToken := none, emailVerificationTokenExpiresAt := none }
        "u2" 7).2.users.get "u2").isSome = true) := by decide

/-- Claim C2 theorem (amended): strictly-after fails, at-or-before passes. -/
theorem token_expiry_boundary (s : MemoryState) (t tr pw newHash : String)
    (td tdr : TokenData) (now nowr : Nat) :
    (t ≠ "" → getVerificationToken s t = some td →
      ((verifyEmailGET s (some t) now).1 = VerifyResponse.tokenExpired ↔
        td.expiresAt < now)) ∧
    (tr ≠ "" → pw ≠ "" → 8 ≤ pw.length → getPasswordResetToken s tr = some tdr →
      ((resetPasswordPOST s (some tr) (some pw) nowr newHash false).1
          = ResetResponse.tokenExpired ↔ tdr.expiresAt < nowr)) := by
  constructor
  · intro ht hv
    by_cases hlt : td.expiresAt < now
    · simp [verifyEmailGET, optStrTruthy, ht, hv, hlt]
    · simp only [verifyEmailGET, optStrTruthy, ht, hv]
      obtain ⟨hidx, htt, u, husr, hexp⟩ := getVerificationToken_inv hv
      simp [ht, hv, hlt, verifyUserEmail_eq now husr]
  · intro ht hpw hlen hv
    by_cases hlt : tdr.expiresAt < nowr
    · simp [resetPasswordPOST, optStrTruthy, ht, hpw, Nat.not_lt.mpr hlen, hv, hlt]
    · obtain ⟨hidx, htt, u, husr, hexp⟩ := getPasswordResetToken_inv hv
      simp [resetPasswordPOST, optStrTruthy, ht, hpw, Nat.not_lt.mpr hlen, hv, hlt,
        updatePassword_eq newHash nowr husr]

/-- Claim C2 counterexample: at exactly expiresAt the confirmation succeeds. -/
theorem token_at_expiry_succeeds :
    getVerificationToken exState "tok"
        = some { userId := "u1", token := "tok", expiresAt := 1000 } ∧
    (verifyEmailGET exState (some "tok") 1000).1 = VerifyResponse.redirectSuccess ∧
    getPasswordResetToken exState "rt"
        = some { userId := "u1", token := "rt", expiresAt := 1000 } ∧
    (resetPasswordPOST exState (some "rt") (some "Abcdef12") 1000 "h2" false).1
        = ResetResponse.success := by decide

/-- Claim C3 theorem (amended): with a valid unexpired token, reset-password
rejects with ValidationError exactly the passwords shorter than 8 characters
(or missing); every other password — including those the registration policy
rejects — is accepted, and in particular every registration-policy-accepted
password is accepted. -/
theorem reset_password_min_length_only (s : MemoryState) (t newHash : String)
    (td : TokenData) (now : Nat) (ht : t ≠ "")
    (hv : getPasswordResetToken s t = some td) (hexp : ¬ td.expiresAt < now) :
    (∀ pw : String,
      ((resetPasswordPOST s (some t) (some pw) now newHash false).1.isValidationError = true
        ↔ pw.length < 8)) ∧
    (∀ pw : String, 8 ≤ pw.length →
      (resetPasswordPOST s (some t) (some pw) now newHash false).1 = ResetResponse.success) ∧
    (∀ pw : String, passwordSchemaAccepts pw = true →
      (resetPasswordPOST s (some t) (some pw) now newHash false).1 = ResetResponse.success) := by
  obtain ⟨hidx, htt, u, husr, hue⟩ := getPasswordResetToken_inv hv
  have hok : ∀ pw : String, 8 ≤ pw.length →
      (resetPasswordPOST s (some t) (some pw) now newHash false).1 = ResetResponse.success := by
    intro pw hlen
    have hpw : pw ≠ "" := by
      intro he
      rw [he] at hlen
      simp at hlen
    simp [resetPasswordPOST, optStrTruthy, ht, hpw, Nat.not_lt.mpr hlen, hv, hexp,
      updatePassword_eq newHash now husr]
  refine ⟨?_, hok, ?_⟩
  · intro pw
    by_cases hlen : pw.length < 8
    · by_cases hpw : pw = ""
      · simp [resetPasswordPOST, optStrTruthy, ht, hpw, hlen, ResetResponse.isValidationError]
      · simp [resetPasswordPOST, optStrTruthy, ht, hpw, hlen, ResetResponse.isValidationError]
    · rw [hok pw (Nat.not_lt.mp hlen)]
      simp [ResetResponse.isValidationError, hlen]
  · intro pw hacc
    have hlen : 8 ≤ pw.length := by
      have := hacc
      unfold passwordSchemaAccepts at this
      simp at this
      exact this.1.1.1.1
    exact hok pw hlen

/-- Claim C3 counterexample: an 8-character all-lowercase password fails the
registration policy but is accepted by the reset route. -/
theorem reset_accepts_registration_rejected_password :
    passwordSchemaAccepts "aaaaaaaa" = false ∧
    getPasswordResetToken exState "rt"
        = some { userId := "u1", token := "rt", expiresAt := 1000 } ∧
    (resetPasswordPOST exState (some "rt") (some "aaaaaaaa") 500 "h2" false).1
        = ResetResponse.success := by decide

/-- Claim C4 theorem: a consumed token is unreachable and a second
confirmation fails with the InvalidToken error of its flow. -/
theorem token_single_use (s : MemoryState) (t tr pw newHash : String)
    (td tdr : TokenData) (now now2 nowr nowr2 : Nat) :
    (t ≠ "" → getVerificationToken s t = some td → ¬ td.expiresAt < now →
      (verifyEmailGET s (some t) now).1 = VerifyResponse.redirectSuccess ∧
      getVerificationToken (verifyEmailGET s (some t) now).2 t = none ∧
      (verifyEmailGET (verifyEmailGET s (some t) now).2 (some t) now2).1
        = VerifyResponse.invalidToken) ∧
    (tr ≠ "" → pw ≠ "" → 8 ≤ pw.length →
      getPasswordResetToken s tr = some tdr → ¬ tdr.expiresAt < nowr →
      (resetPasswordPOST s (some tr) (some pw) nowr newHash false).1
        = ResetResponse.success ∧
      getPasswordResetToken
        (resetPasswordPOST s (some tr) (some pw) nowr newHash false).2 tr = none ∧
      (resetPasswordPOST (resetPasswordPOST s (some tr) (some pw) nowr newHash false).2
          (some tr) (some pw) nowr2 newHash false).1 = ResetResponse.invalidToken) := by
  constructor
  · intro ht hv hexp
    obtain ⟨hidx, htt, u, husr, hue⟩ := getVerificationToken_inv hv
    have hroute : verifyEmailGET s (some t) now =
        (VerifyResponse.redirectSuccess,
          { users := s.users.set td.userId
              { u with emailVerified := some now, emailVerificationToken := none,
                       emailVerificationTokenExpiresAt := none, updatedAt := now }
            emailIndex := s.emailIndex
            verificationTokenIndex :=
              deleteIfTruthy s.verificationTokenIndex u.emailVerificationToken
            passwordResetTokenIndex := s.passwordResetTokenIndex }) := by
      simp [verifyEmailGET, optStrTruthy, ht, hv, hexp, verifyUserEmail_eq now husr]
    have hnone : getVerificationToken (verifyEmailGET s (some t) now).2 t = none := by
      rw [hroute]
      rcases deleteIfTruthy_get s.verificationTokenIndex u.emailVerificationToken t with hd | hd
      · simp [getVerificationToken, hd]
      · rw [hidx] at hd
        simp [getVerificationToken, hd, SMap.get_set_self]
    refine ⟨by rw [hroute], hnone, ?_⟩
    generalize hq : (verifyEmailGET s (some t) now).2 = q at hnone ⊢
    simp [verifyEmailGET, optStrTruthy, ht, hnone]
  · intro ht hpw hlen hv hexp
    obtain ⟨hidx, htt, u, husr, hue⟩ := getPasswordResetToken_inv hv
    have hroute : resetPasswordPOST s (some tr) (some pw) nowr newHash false =
        (ResetResponse.success,
          { users := s.users.set tdr.userId
              { u with passwordHash := newHash, passwordResetToken := none,
                       passwordResetTokenExpiresAt := none, updatedAt := nowr }
            emailIndex := s.emailIndex
            verificationTokenIndex := s.verificationTokenIndex
            passwordResetTokenIndex :=
              deleteIfTruthy s.passwordResetTokenIndex u.passwordResetToken }) := by
      simp [resetPasswordPOST, optStrTruthy, ht, hpw, Nat.not_lt.mpr hlen, hv, hexp,
        updatePassword_eq newHash nowr husr]
    have hnone : getPasswordResetToken
        (resetPasswordPOST s (some tr) (some pw) nowr newHash false).2 tr = none := by
      rw [hroute]
      rcases deleteIfTruthy_get s.passwordResetTokenIndex u.passwordResetToken tr with hd | hd
      · simp [getPasswordResetToken, hd]
      · rw [hidx] at hd
        simp [getPasswordResetToken, hd, SMap.get_set_self]
    refine ⟨by rw [hroute], hnone, ?_⟩
    generalize hq : (resetPasswordPOST s (some tr) (some pw) nowr newHash false).2 = q at hnone ⊢
    simp [resetPasswordPOST, optStrTruthy, ht, hpw, Nat.not_lt.mpr hlen, hnone]

/-- Claim C5 theorem: setting a fresh token removes the superseded token of
the same purpose from the lookup index. -/
theorem token_supersession (s : MemoryState) (uid t1 t2 : String) (user : User)
    (exp now : Nat) (h12 : t1 ≠ t2) (h1 : t1 ≠ "")
    (hu : s.users.get uid = some user) :
    (user.emailVerificationToken = some t1 →
      ∃ s1, setVerificationToken s uid t2 exp now = Except.ok s1 ∧
        getVerificationToken s1 t1 = none) ∧
    (user.passwordResetToken = some t1 →
      ∃ s1, setPasswordResetToken s uid t2 exp now = Except.ok s1 ∧
        getPasswordResetToken s1 t1 = none) := by
  constructor
  · intro hold
    have hset : setVerificationToken s uid t2 exp now = Except.ok
        { s with
          verificationTokenIndex := (s.verificationTokenIndex.delete t1).set t2 uid,
          users := s.users.set uid { user with emailVerificationToken := some t2, emailVerificationTokenExpiresAt := some exp, updatedAt := now } } := by
      simp [setVerificationToken, hu, deleteIfTruthy, hold, h1]
    refine ⟨_, hset, ?_⟩
    have hgone : ((s.verificationTokenIndex.delete t1).set t2 uid).get t1 = none := by
      rw [SMap.get_set_ne _ _ _ _ h12, SMap.get_delete]
      simp
    simp [getVerificationToken, hgone]
  · intro hold
    have hset : setPasswordResetToken s uid t2 exp now = Except.ok
        { s with
          passwordResetTokenIndex := (s.passwordResetTokenIndex.delete t1).set t2 uid,
          users := s.users.set uid { user with passwordResetToken := some t2, passwordResetTokenExpiresAt := some exp, updatedAt := now } } := by
      simp [setPasswordResetToken, hu, deleteIfTruthy, hold, h1]
    refine ⟨_, hset, ?_⟩
    have hgone : ((s.passwordResetTokenIndex.delete t1).set t2 uid).get t1 = none := by
      rw [SMap.get_set_ne _ _ _ _ h12, SMap.get_delete]
      simp
    simp [getPasswordResetToken, hgone]

/-- Claim C6 theorem: the three branches of checkRateLimit as the code writes
them, plus the window scenario — starting empty, the first `limit` requests in
one window are allowed, the next request inside the window is denied, and the
first request after resetAt has passed is allowed again. -/
theorem rate_limiter_fixed_window (config : RateLimitConfig) (entry : RateLimitEntry)
    (now t0 tNext tAfter : Nat) (ts : List Nat)
    (hlim : 1 ≤ config.limit)
    (hts : ∀ t ∈ ts, t ≤ t0 + config.windowSeconds * 1000)
    (hlen : ts.length + 1 = config.limit)
    (hNext : tNext ≤ t0 + config.windowSeconds * 1000)
    (hAfter : t0 + config.windowSeconds * 1000 < tAfter) :
    (checkRateLimit none now config =
      ({ allowed := true, remaining := (config.limit : Int) - 1,
         resetAt := now + config.windowSeconds * 1000 },
       some { count := 1, resetAt := now + config.windowSeconds * 1000 })) ∧
    (entry.resetAt < now →
      checkRateLimit (some entry) now config =
        ({ allowed := true, remaining := (config.limit : Int) - 1,
           resetAt := now + config.windowSeconds * 1000 },
         some { count := 1, resetAt := now + config.windowSeconds * 1000 })) ∧
    (¬ entry.resetAt < now → config.limit ≤ entry.count →
      checkRateLimit (some entry) now config =
        ({ allowed := false, remaining := 0, resetAt := entry.resetAt }, some entry)) ∧
    (¬ entry.resetAt < now → entry.count < config.limit →
      checkRateLimit (some entry) now config =
        ({ allowed := true, remaining := (config.limit : Int) - ((entry.count : Int) + 1),
           resetAt := entry.resetAt },
         some { count := entry.count + 1, resetAt := entry.resetAt })) ∧
    (rlRun config (t0 :: ts) none).1 = List.replicate config.limit true ∧
    (checkRateLimit (rlRun config (t0 :: ts) none).2 tNext config).1.allowed = false ∧
    (checkRateLimit (rlRun config (t0 :: ts) none).2 tAfter config).1.allowed = true := by
  have hfirst : checkRateLimit none t0 config =
      ({ allowed := true, remaining := (config.limit : Int) - 1,
         resetAt := t0 + config.windowSeconds * 1000 },
       some { count := 1, resetAt := t0 + config.windowSeconds * 1000 }) := by
    simp [checkRateLimit]
  have hrest := rlRun_fill config (t0 + config.windowSeconds * 1000) ts 1 hts (by omega)
  have hrun : rlRun config (t0 :: ts) none =
      (true :: List.replicate ts.length true,
       some { count := 1 + ts.length, resetAt := t0 + config.windowSeconds * 1000 }) := by
    simp only [rlRun, hfirst, hrest]
  refine ⟨by simp [checkRateLimit], ?_, ?_, ?_, ?_, ?_, ?_⟩
  · intro h1
    simp [checkRateLimit, h1]
  · intro h1 h2
    simp [checkRateLimit, h1, h2]
  · intro h1 h2
    simp [checkRateLimit, h1, Nat.not_le.mpr h2]
  · rw [hrun]
    have : ts.length + 1 = config.limit := hlen
    simp [← this, List.replicate]
  · rw [hrun]
    have h1 : ¬ t0 + config.windowSeconds * 1000 < tNext := Nat.not_lt.mpr hNext
    have h2 : config.limit ≤ 1 + ts.length := by omega
    simp [checkRateLimit, h1, h2]
  · rw [hrun]
    simp [checkRateLimit, hAfter]

/-- Claim C9 theorem: a denied request changes nothing, and remaining is
never negative when the limit is at least 1. -/
theorem rate_limiter_frame (config : RateLimitConfig) (entry : RateLimitEntry)
    (now : Nat) (hlim : 1 ≤ config.limit) :
    (¬ entry.resetAt < now → config.limit ≤ entry.count →
      (checkRateLimit (some entry) now config).1.allowed = false ∧
      (checkRateLimit (some entry) now config).2 = some entry) ∧
    (∀ store : Option RateLimitEntry,
      0 ≤ (checkRateLimit store now config).1.remaining) := by
  constructor
  · intro h1 h2
    simp [checkRateLimit, h1, h2]
  · intro store
    cases store with
    | none =>
      simp [checkRateLimit]
      omega
    | some e =>
      by_cases ha : e.resetAt < now
      · simp [checkRateLimit, ha]
        omega
      · by_cases hb : config.limit ≤ e.count
        · simp [checkRateLimit, ha, hb]
        · simp [checkRateLimit, ha, hb]
          omega

/-- Claim C7 theorem: with the same rate-limit outcome and succeeding
collaborators, forgot-password answers the identical success body whether or
not the email belongs to a stored user. -/
theorem forgot_password_anti_enumeration (s1 s2 : MemoryState) (e tok1 tok2 : String)
    (now1 now2 : Nat) (he : e ≠ "") (hk1 : UsersKeyed s1) (hk2 : UsersKeyed s2) :
    (forgotPasswordPOST s1 false (some e) tok1 now1).1 = ForgotResponse.success ∧
    (forgotPasswordPOST s2 false (some e) tok2 now2).1 = ForgotResponse.success ∧
    (forgotPasswordPOST s1 false (some e) tok1 now1).1
      = (forgotPasswordPOST s2 false (some e) tok2 now2).1 := by
  have main : ∀ (s : MemoryState) (tok : String) (now : Nat), UsersKeyed s →
      (forgotPasswordPOST s false (some e) tok now).1 = ForgotResponse.success := by
    intro s tok now hk
    cases hf : findUserByEmail s e with
    | none => simp [forgotPasswordPOST, optStrTruthy, he, hf]
    | some u =>
      obtain ⟨user, husr⟩ := findUserByEmail_keyed hk hf
      simp [forgotPasswordPOST, optStrTruthy, he, hf, setPasswordResetToken, husr]
  have m1 := main s1 tok1 now1 hk1
  have m2 := main s2 tok2 now2 hk2
  exact ⟨m1, m2, by rw [m1, m2]⟩

/-- Claim C8 theorem: the middleware gate redirects unauthenticated requests
on protected paths to login carrying the path, redirects authenticated
requests on auth-only paths to the dashboard, and passes everything else. -/
theorem middleware_gate (p : String) (a : Bool) :
    (isProtectedRoute p = true → a = false →
      middleware p a = GateDecision.redirectToLogin p) ∧
    (isAuthRoute p = true → a = true →
      middleware p a = GateDecision.redirectToDashboard) ∧
    (¬(isProtectedRoute p = true ∧ a = false) → ¬(isAuthRoute p = true ∧ a = true) →
      middleware p a = GateDecision.next) := by
  refine ⟨?_, ?_, ?_⟩
  · intro hp ha
    simp [middleware, hp, ha]
  · intro hr ha
    subst ha
    simp [middleware, hr]
  · intro h1 h2
    cases hp : isProtectedRoute p <;> cases hr : isAuthRoute p <;> cases a <;>
      simp_all [middleware]

/-- Claim C10 theorem: on a missing user the clear operations are silent
no-ops while the set operations throw the user-not-found error. -/
theorem missing_user_token_ops (s : MemoryState) (uid tok : String) (exp now : Nat)
    (h : s.users.get uid = none) :
    clearVerificationToken s uid now = s ∧
    clearPasswordResetToken s uid now = s ∧
    setVerificationToken s uid tok exp now = Except.error ("User not found: " ++ uid) ∧
    setPasswordResetToken s uid tok exp now = Except.error ("User not found: " ++ uid) := by
  refine ⟨?_, ?_, ?_, ?_⟩ <;>
    simp [clearVerificationToken, clearPasswordResetToken, setVerificationToken,
      setPasswordResetToken, h]

/-- Witness for the C1 theorem at a concrete empty store. -/
theorem register_enforces_email_uniqueness_witness :
    emailExists emptyState "a@x.com" = false ∧
    (registerPOST emptyState false "a@x.com" "h1" "Ann" "t1" "u1" 0).1
      = RegisterResponse.created "u1" (toLowerStr "a@x.com") "Ann" :=
  ⟨by decide,
   (register_enforces_email_uniqueness emptyState "a@x.com" "h1" "Ann" "t1" "t2"
      "u1" "u2" 0 1 (by decide)).1⟩

/-- Witness for the C2 theorem at a concrete store and time. -/
theorem token_expiry_boundary_witness :
    getVerificationToken exState "tok"
      = some { userId := "u1", token := "tok", expiresAt := 1000 } ∧
    ((verifyEmailGET exState (some "tok") 2000).1 = VerifyResponse.tokenExpired ↔
      (1000 : Nat) < 2000) :=
  ⟨by decide,
   (token_expiry_boundary exState "tok" "rt" "Abcdef12" "h2"
      { userId := "u1", token := "tok", expiresAt := 1000 }
      { userId := "u1", token := "rt", expiresAt := 1000 } 2000 500).1
     (by decide) (by decide)⟩

/-- Witness for the C3 theorem at a concrete store. -/
theorem reset_password_min_length_only_witness :
    getPasswordResetToken exState "rt"
      = some { userId := "u1", token := "rt", expiresAt := 1000 } ∧
    ((resetPasswordPOST exState (some "rt") (some "aaaaaaaa") 500 "h2" false).1.isValidationError
      = true ↔ ("aaaaaaaa" : String).length < 8) :=
  ⟨by decide,
   (reset_password_min_length_only exState "rt" "h2"
      { userId := "u1", token := "rt", expiresAt := 1000 } 500
      (by decide) (by decide) (by decide)).1 "aaaaaaaa"⟩

/-- Witness for the C4 theorem at a concrete store. -/
theorem token_single_use_witness :
    getVerificationToken exState "tok"
      = some { userId := "u1", token := "tok", expiresAt := 1000 } ∧
    (verifyEmailGET (verifyEmailGET exState (some "tok") 500).2 (some "tok") 600).1
      = VerifyResponse.invalidToken :=
  ⟨by decide,
   ((token_single_use exState "tok" "rt" "Abcdef12" "h2"
      { userId := "u1", token := "tok", expiresAt := 1000 }
      { userId := "u1", token := "rt", expiresAt := 1000 } 500 600 500 600).1
     (by decide) (by decide) (by decide)).2.2⟩

/-- Witness for the C5 theorem at a concrete store. -/
theorem token_supersession_witness :
    exState.users.get "u1" = some exUser ∧
    (∃ s1, setVerificationToken exState "u1" "tok2" 9000 100 = Except.ok s1 ∧
      getVerificationToken s1 "tok" = none) :=
  ⟨by decide,
   (token_supersession exState "u1" "tok" "tok2" exUser 9000 100
      (by decide) (by decide) (by decide)).1 (by decide)⟩

/-- Witness for the C6 theorem with limit 2: two requests pass, the third is
denied, a request after the window passes again. -/
theorem rate_limiter_fixed_window_witness :
    (∀ t ∈ [3], t ≤ 0 + 60 * 1000) ∧
    (rlRun { limit := 2, windowSeconds := 60 } (0 :: [3]) none).1
      = List.replicate 2 true :=
  ⟨by decide,
   (rate_limiter_fixed_window { limit := 2, windowSeconds := 60 }
      { count := 0, resetAt := 0 } 5 0 10 70000 [3]
      (by decide) (by decide) (by decide) (by decide) (by decide)).2.2.2.2.1⟩

/-- Witness for the C9 theorem at a concrete saturated entry. -/
theorem rate_limiter_frame_witness :
    (1 ≤ (5 : Nat)) ∧
    0 ≤ (checkRateLimit (some { count := 5, resetAt := 100 }) 50
      { limit := 5, windowSeconds := 60 }).1.remaining :=
  ⟨by decide,
   (rate_limiter_frame { limit := 5, windowSeconds := 60 } { count := 5, resetAt := 100 }
      50 (by decide)).2 (some { count := 5, resetAt := 100 })⟩

/-- Witness for the C7 theorem: one store holds a user with the email, the
other is empty; the responses coincide. -/
theorem forgot_password_anti_enumeration_witness :
    UsersKeyed exState ∧ UsersKeyed emptyState ∧
    (forgotPasswordPOST exState false (some "a@x.com") "t9" 10).1
      = (forgotPasswordPOST emptyState false (some "a@x.com") "t8" 11).1 :=
  ⟨by decide, by decide,
   (forgot_password_anti_enumeration exState emptyState "a@x.com" "t9" "t8" 10 11
      (by decide) (by decide) (by decide)).2.2⟩

/-- Witness for the C8 theorem at a concrete protected subpath. -/
theorem middleware_gate_witness :
    isProtectedRoute "/dashboard/settings" = true ∧
    middleware "/dashboard/settings" false
      = GateDecision.redirectToLogin "/dashboard/settings" :=
  ⟨by decide, (middleware_gate "/dashboard/settings" false).1 (by decide) rfl⟩

/-- Witness for the C10 theorem at a concrete missing user id. -/
theorem missing_user_token_ops_witness :
    emptyState.users.get "nobody" = none ∧
    setVerificationToken emptyState "nobody" "t" 5 6
      = Except.error ("User not found: " ++ "nobody") :=
  ⟨by decide, (missing_user_token_ops emptyState "nobody" "t" 5 6 (by decide)).2.2.1⟩
